import Mathlib

/-!
Shallow embedding of the integradora e-commerce backend (src/index.js):
the request handlers for registration, login, product upload, listing and
deletion, and order creation, modelled as pure functions over an explicit
relational store. SQL statements are embedded as list operations on the
store, SERIAL primary keys as explicit counters, and JSON request bodies
as optional fields with JavaScript truthiness made explicit.
-/

/-- A row of the users table (id SERIAL, email, password, role). -/
structure User where
  id : Nat
  email : String
  password : String
  role : String
  deriving Repr, DecidableEq

/-- A row of the products table; per src/index.js the seller column stores
the uploading seller's email. -/
structure Product where
  id : Nat
  name : String
  price : Int
  stock : Int
  seller : String
  deriving Repr, DecidableEq

/-- A row of the orders table (user_id, total) per src/index.js. -/
structure Order where
  id : Nat
  userId : Nat
  total : Int
  deriving Repr, DecidableEq

/-- A row of the order_items table per src/index.js (no price column). -/
structure OrderItem where
  id : Nat
  orderId : Nat
  productId : Nat
  quantity : Int
  deriving Repr, DecidableEq

/-- The relational store: the four tables plus the next value of each
SERIAL id sequence. -/
structure Store where
  users : List User
  products : List Product
  orders : List Order
  orderItems : List OrderItem
  nextUserId : Nat
  nextProductId : Nat
  nextOrderId : Nat
  nextOrderItemId : Nat
  deriving Repr, DecidableEq

/-- The empty database. -/
def emptyStore : Store :=
  ⟨[], [], [], [], 1, 1, 1, 1⟩

/-- JavaScript truthiness of an optional numeric body field: absent
(undefined) and 0 are falsy, every other number is truthy. -/
def truthyNum : Option Int → Bool
  | none => false
  | some v => v != 0

/-- JavaScript truthiness of an optional string body field: absent and the
empty string are falsy. -/
def truthyStr : Option String → Bool
  | none => false
  | some s => s != ""

/-- Modelled from the spec: the payload the login handler passes to
jwt.sign, exactly the fields id, email and role. -/
structure JwtPayload where
  id : Nat
  email : String
  role : String
  deriving Repr, DecidableEq

/-- Modelled from the spec: a signed token as produced by the external
jsonwebtoken library — the embedded payload, the expiry instant, and the
secret it was signed with. -/
structure JwtToken where
  payload : JwtPayload
  exp : Nat
  secret : String
  deriving Repr, DecidableEq

/-- The session secret (the hardcoded fallback of process.env.SECRET_KEY). -/
def secretKey : String := "secretkey"

/-- Modelled from the spec: jwt.sign with expiresIn of one hour embeds the
payload and sets the expiry 3600 seconds after issuance. -/
def jwtSign (p : JwtPayload) (secret : String) (now : Nat) : JwtToken :=
  ⟨p, now + 3600, secret⟩

/-- Modelled from the spec: jwt.verify succeeds exactly when the token was
signed with the given secret and has not yet expired, and then returns the
embedded payload; it consults nothing but the token itself. -/
def jwtVerify (t : JwtToken) (secret : String) (now : Nat) : Option JwtPayload :=
  if t.secret = secret ∧ now < t.exp then some t.payload else none

/-- A JSON response body, one constructor per body shape the handlers emit. -/
inductive Body where
  | msg : String → Body
  | msgUser : String → User → Body
  | msgProduct : String → Product → Body
  | msgToken : String → JwtToken → String → Body
  | msgOrderId : String → Nat → Body
  | rows : List Product → Body
  deriving Repr, DecidableEq

/-- An HTTP response: status code and JSON body. -/
structure Response where
  status : Nat
  body : Body
  deriving Repr, DecidableEq

/-- Result of a handler that may write to the store. -/
structure HResult where
  store : Store
  resp : Response
  deriving Repr, DecidableEq

/-- The verifyToken middleware: 403 when no authorization header is
present, 401 when verification fails, otherwise the decoded claims are
attached to the request. -/
def verifyToken (token : Option JwtToken) (now : Nat) : Except Response JwtPayload :=
  match token with
  | none => .error ⟨403, .msg "No se proporcionó un token"⟩
  | some t =>
    match jwtVerify t secretKey now with
    | none => .error ⟨401, .msg "Token no válido"⟩
    | some p => .ok p

/-- The POST /register handler: 400 when the role is not buyer or seller,
400 when a user with the same email exists, otherwise inserts the user and
returns the inserted row (RETURNING returns every column) with 201. -/
def register (s : Store) (email password role : String) : HResult :=
  if ¬ (role = "buyer" ∨ role = "seller") then
    ⟨s, ⟨400, .msg "Rol inválido"⟩⟩
  else if s.users.any (fun u => u.email == email) then
    ⟨s, ⟨400, .msg "El usuario ya existe"⟩⟩
  else
    let newUser : User := ⟨s.nextUserId, email, password, role⟩
    ⟨{ s with users := s.users ++ [newUser], nextUserId := s.nextUserId + 1 },
      ⟨201, .msgUser "Usuario registrado exitosamente" newUser⟩⟩

/-- The SELECT of the login handler: the first user row matching both the
submitted email and password exactly; an absent field matches no row. -/
def findUserByCreds (users : List User) (email password : Option String) : Option User :=
  users.find? (fun u => email == some u.email && password == some u.password)

/-- The POST /login handler: an undifferentiated 401 when no user matches
the submitted credentials, otherwise 200 with a signed token embedding the
matched user's id, email and role, and that user's role. -/
def login (s : Store) (email password : Option String) (now : Nat) : Response :=
  match findUserByCreds s.users email password with
  | none => ⟨401, .msg "Credenciales incorrectas"⟩
  | some u =>
    ⟨200, .msgToken "Inicio de sesión exitoso"
      (jwtSign ⟨u.id, u.email, u.role⟩ secretKey now) u.role⟩

/-- The POST /upload-product handler (after verifyToken): 400 when name,
price or stock is falsy, 403 when the caller is not a seller, otherwise
inserts a product whose seller column is the caller's email and returns it
with 201. -/
def uploadProduct (s : Store) (caller : JwtPayload)
    (name : Option String) (price stock : Option Int) : HResult :=
  if ¬ truthyStr name ∨ ¬ truthyNum price ∨ ¬ truthyNum stock then
    ⟨s, ⟨400, .msg "Todos los campos son obligatorios"⟩⟩
  else if caller.role ≠ "seller" then
    ⟨s, ⟨403, .msg "Solo los vendedores pueden subir productos"⟩⟩
  else
    let p : Product := ⟨s.nextProductId, name.getD "", price.getD 0, stock.getD 0, caller.email⟩
    ⟨{ s with products := s.products ++ [p], nextProductId := s.nextProductId + 1 },
      ⟨201, .msgProduct "Producto subido exitosamente" p⟩⟩

/-- The SELECT of GET /products: every product row with stock strictly
greater than 0, in storage order. -/
def listAvailable (s : Store) : List Product :=
  s.products.filter (fun p => decide (0 < p.stock))

/-- The GET /products handler. -/
def getProducts (s : Store) : Response :=
  ⟨200, .rows (listAvailable s)⟩

/-- The DELETE /products/:id handler (after verifyToken): 403 when the
caller is not a seller; otherwise deletes the rows whose id is the given
one and whose seller column equals the caller's email, answering 404 when
no row matched and 200 when one did. -/
def deleteProduct (s : Store) (caller : JwtPayload) (pid : Nat) : HResult :=
  if caller.role ≠ "seller" then
    ⟨s, ⟨403, .msg "Solo los vendedores pueden eliminar productos"⟩⟩
  else if s.products.any (fun p => p.id == pid && p.seller == caller.email) then
    ⟨{ s with products := s.products.filter (fun p => !(p.id == pid && p.seller == caller.email)) },
      ⟨200, .msg "Producto eliminado exitosamente"⟩⟩
  else
    ⟨s, ⟨404, .msg "Producto no encontrado o no tienes permiso para eliminarlo"⟩⟩

/-- A cart line of the POST /orders body: a product id and an optional
quantity (src/index.js reads no other field of the line). -/
structure CartLine where
  id : Nat
  quantity : Option Int
  deriving Repr, DecidableEq

/-- The JavaScript default in the item insert, product.quantity || 1:
absent and 0 become 1, every other value is kept unchanged. -/
def effQuantity : Option Int → Int
  | none => 1
  | some q => if q = 0 then 1 else q

/-- The item-insert loop of the POST /orders handler: one order_items row
per cart line, in sequence. The oracle failAt says which SQL inserts of
the handler error (index 0 is the order-header insert, so the items are
numbered from 1); a failing insert stops the loop, keeping the rows
already inserted, and reports failure. -/
def insertItems (s : Store) (orderId : Nat) (lines : List CartLine)
    (failAt : Nat → Bool) (k : Nat) : Store × Bool :=
  match lines with
  | [] => (s, true)
  | l :: rest =>
    if failAt k then (s, false)
    else
      insertItems
        { s with
          orderItems := s.orderItems ++
            [⟨s.nextOrderItemId, orderId, l.id, effQuantity l.quantity⟩],
          nextOrderItemId := s.nextOrderItemId + 1 }
        orderId rest failAt (k + 1)

/-- The POST /orders handler (after verifyToken): 400 when the products
list is falsy or empty or the total is falsy; otherwise inserts one order
row for the caller with the client-supplied total, then one order_items
row per cart line, answering 201 with the new order id when every insert
succeeded and 500 as soon as one errors, with no rollback of the rows
already written. -/
def createOrder (s : Store) (caller : JwtPayload)
    (products : Option (List CartLine)) (total : Option Int)
    (failAt : Nat → Bool) : HResult :=
  match products with
  | none => ⟨s, ⟨400, .msg "Datos incompletos para procesar la orden."⟩⟩
  | some lines =>
    if lines.length = 0 ∨ ¬ truthyNum total then
      ⟨s, ⟨400, .msg "Datos incompletos para procesar la orden."⟩⟩
    else if failAt 0 then
      ⟨s, ⟨500, .msg "Error al crear orden"⟩⟩
    else
      let orderId := s.nextOrderId
      let s1 : Store :=
        { s with orders := s.orders ++ [⟨orderId, caller.id, total.getD 0⟩],
                 nextOrderId := orderId + 1 }
      match insertItems s1 orderId lines failAt 1 with
      | (s2, true) => ⟨s2, ⟨201, .msgOrderId "Orden creada exitosamente" orderId⟩⟩
      | (s2, false) => ⟨s2, ⟨500, .msg "Error al crear orden"⟩⟩

/-- The order_items rows the loop writes when no insert fails: one row per
cart line with consecutive ids and the defaulted quantity. -/
def mkItems (startId orderId : Nat) : List CartLine → List OrderItem
  | [] => []
  | l :: rest => ⟨startId, orderId, l.id, effQuantity l.quantity⟩ :: mkItems (startId + 1) orderId rest

/-- A sample user row used by concrete instantiations. -/
def sampleUser : User := ⟨1, "a@x.com", "pw", "seller"⟩

/-- A store holding exactly the sample user. -/
def oneUserStore : Store :=
  { emptyStore with users := [sampleUser], nextUserId := 2 }

/-- The password field of the user object embedded in a response body, when
the body carries one. -/
def bodyUserPassword : Body → Option String
  | .msgUser _ u => some u.password
  | _ => none

theorem findUserByCreds_absent (users : List User) (e p : Option String)
    (h : e = none ∨ p = none) : findUserByCreds users e p = none := by
  rw [findUserByCreds, List.find?_eq_none]
  intro u _
  rcases h with h | h <;> subst h <;> simp

/-- C8: GET /products answers 200 with exactly the products of positive
stock — every product with stock greater than 0 is returned and no product
with stock 0 or below ever is, for every store state. -/
theorem getProducts_stock_filter (s : Store) (p : Product) :
    getProducts s = ⟨200, .rows (listAvailable s)⟩ ∧
    (p ∈ listAvailable s ↔ p ∈ s.products ∧ 0 < p.stock) := by
  refine ⟨rfl, ?_⟩
  simp [listAvailable, List.mem_filter]

/-- C10: login performs no input validation — with the email or the
password absent from the body the lookup still runs and the handler
answers the same undifferentiated 401 as for wrong credentials, never 400. -/
theorem login_no_validation (s : Store) (e p : Option String) (now : Nat) :
    login s none p now = ⟨401, .msg "Credenciales incorrectas"⟩ ∧
    login s e none now = ⟨401, .msg "Credenciales incorrectas"⟩ := by
  have h1 := findUserByCreds_absent s.users none p (Or.inl rfl)
  have h2 := findUserByCreds_absent s.users e none (Or.inr rfl)
  constructor <;> simp [login, h1, h2]

/-- C7: a login attempt with a known email but wrong password and one with
an unknown email produce identical responses — the same 401 with the same
message — revealing nothing about which credential part failed. -/
theorem login_indistinguishable (s : Store) (e1 p1 e2 p2 : String)
    (now1 now2 : Nat)
    (hsome : ∃ u ∈ s.users, u.email = e1)
    (hwrong : ∀ u ∈ s.users, u.email = e1 → u.password ≠ p1)
    (hunknown : ∀ u ∈ s.users, u.email ≠ e2) :
    login s (some e1) (some p1) now1 = login s (some e2) (some p2) now2 ∧
    login s (some e1) (some p1) now1 = ⟨401, .msg "Credenciales incorrectas"⟩ := by
  have h1 : findUserByCreds s.users (some e1) (some p1) = none := by
    rw [findUserByCreds, List.find?_eq_none]
    intro u hu
    simp only [Bool.and_eq_true, beq_iff_eq, Option.some.injEq, not_and]
    intro he hp
    exact hwrong u hu he.symm hp.symm
  have h2 : findUserByCreds s.users (some e2) (some p2) = none := by
    rw [findUserByCreds, List.find?_eq_none]
    intro u hu
    simp only [Bool.and_eq_true, beq_iff_eq, Option.some.injEq, not_and]
    intro he _
    exact hunknown u hu he.symm
  constructor <;> simp [login, h1, h2]

/-- C7 witness: in the sample store, a wrong password for the known email
and an unknown email yield the very same 401 response. -/
theorem login_indistinguishable_witness :
    login oneUserStore (some "a@x.com") (some "wrong") 0 =
      login oneUserStore (some "z@x.com") (some "pw") 7 ∧
    login oneUserStore (some "a@x.com") (some "wrong") 0 =
      ⟨401, .msg "Credenciales incorrectas"⟩ :=
  login_indistinguishable oneUserStore "a@x.com" "wrong" "z@x.com" "pw" 0 7
    (by decide) (by decide) (by decide)

/-- C6: a successful login issues a token signed with the server secret
embedding exactly the matched user's id, email and role with a one-hour
expiry, and verifying that token while unexpired returns exactly those
claims; verification reads nothing but the token, so later store changes
cannot affect it. -/
theorem login_token_roundtrip (s : Store) (e p : Option String)
    (now tv : Nat) (u : User)
    (hu : findUserByCreds s.users e p = some u)
    (hv : tv < now + 3600) :
    login s e p now =
      ⟨200, .msgToken "Inicio de sesión exitoso"
        (jwtSign ⟨u.id, u.email, u.role⟩ secretKey now) u.role⟩ ∧
    (jwtSign ⟨u.id, u.email, u.role⟩ secretKey now).exp = now + 3600 ∧
    jwtVerify (jwtSign ⟨u.id, u.email, u.role⟩ secretKey now) secretKey tv =
      some ⟨u.id, u.email, u.role⟩ := by
  refine ⟨by simp [login, hu], rfl, ?_⟩
  simp [jwtVerify, jwtSign, hv]

/-- C6 witness: logging the sample user in at time 0 and verifying the
issued token at time 1800 returns exactly the claims embedded at issuance. -/
theorem login_token_roundtrip_witness :
    login oneUserStore (some "a@x.com") (some "pw") 0 =
      ⟨200, .msgToken "Inicio de sesión exitoso"
        (jwtSign ⟨1, "a@x.com", "seller"⟩ secretKey 0) "seller"⟩ ∧
    (jwtSign ⟨1, "a@x.com", "seller"⟩ secretKey 0).exp = 3600 ∧
    jwtVerify (jwtSign ⟨1, "a@x.com", "seller"⟩ secretKey 0) secretKey 1800 =
      some ⟨1, "a@x.com", "seller"⟩ :=
  login_token_roundtrip oneUserStore (some "a@x.com") (some "pw") 0 1800
    sampleUser (by decide) (by decide)

/-- C2 counterexample: a fresh valid registration answers 201 whose user
object is the full inserted row, so its password field carries the
submitted password verbatim — the response is not limited to public
fields. -/
theorem register_response_contains_password :
    (register emptyStore "a@x.com" "hunter2" "buyer").resp =
      ⟨201, .msgUser "Usuario registrado exitosamente" ⟨1, "a@x.com", "hunter2", "buyer"⟩⟩ ∧
    bodyUserPassword (register emptyStore "a@x.com" "hunter2" "buyer").resp.body =
      some "hunter2" := by
  constructor <;> decide

/-- C2 amended: register fails with 400 when the role is not buyer or
seller, fails with 400 when a user with the same email already exists
(store unchanged in both cases), and otherwise persists the new user and
answers 201 with the full stored row, the password included. -/
theorem register_contract (s : Store) (email password role : String) :
    (¬ (role = "buyer" ∨ role = "seller") →
      register s email password role = ⟨s, ⟨400, .msg "Rol inválido"⟩⟩) ∧
    ((role = "buyer" ∨ role = "seller") →
      (∃ u ∈ s.users, u.email = email) →
      register s email password role = ⟨s, ⟨400, .msg "El usuario ya existe"⟩⟩) ∧
    ((role = "buyer" ∨ role = "seller") →
      (∀ u ∈ s.users, u.email ≠ email) →
      register s email password role =
        ⟨{ s with users := s.users ++ [⟨s.nextUserId, email, password, role⟩],
                  nextUserId := s.nextUserId + 1 },
          ⟨201, .msgUser "Usuario registrado exitosamente"
            ⟨s.nextUserId, email, password, role⟩⟩⟩) := by
  refine ⟨fun h => ?_, fun hrole hdup => ?_, fun hrole hnew => ?_⟩
  · unfold register; rw [if_pos h]
  · have hany : s.users.any (fun u => u.email == email) = true := by
      simp only [List.any_eq_true, beq_iff_eq]
      obtain ⟨u, hu, he⟩ := hdup
      exact ⟨u, hu, he⟩
    unfold register
    rw [if_neg (not_not_intro hrole), if_pos hany]
  · have hany : ¬ (s.users.any (fun u => u.email == email) = true) := by
      simp only [List.any_eq_true, beq_iff_eq]
      rintro ⟨u, hu, he⟩
      exact hnew u hu he
    unfold register
    rw [if_neg (not_not_intro hrole), if_neg hany]

/-- C2 witness: registering a fresh seller in the empty store persists the
row and answers 201 with it. -/
theorem register_contract_witness :
    register emptyStore "s@x.com" "pw" "seller" =
      ⟨{ emptyStore with users := [⟨1, "s@x.com", "pw", "seller"⟩], nextUserId := 2 },
        ⟨201, .msgUser "Usuario registrado exitosamente" ⟨1, "s@x.com", "pw", "seller"⟩⟩⟩ := by
  have h := (register_contract emptyStore "s@x.com" "pw" "seller").2.2 (Or.inr rfl) (by decide)
  rw [h]; rfl

/-- C3: upload-product answers 400 exactly when name, price or stock is
falsy — in particular a price of 0 or a stock of 0 is rejected exactly
like a missing field — and with all three truthy and a seller caller it
inserts a product owned by the caller and returns it with 201. -/
theorem uploadProduct_validation (s : Store) (caller : JwtPayload)
    (name : Option String) (price stock : Option Int) :
    ((uploadProduct s caller name price stock).resp.status = 400 ↔
      (truthyStr name = false ∨ truthyNum price = false ∨ truthyNum stock = false)) ∧
    ((price = some 0 ∨ stock = some 0) →
      uploadProduct s caller name price stock =
        ⟨s, ⟨400, .msg "Todos los campos son obligatorios"⟩⟩) ∧
    (truthyStr name = true → truthyNum price = true → truthyNum stock = true →
      caller.role = "seller" →
      uploadProduct s caller name price stock =
        ⟨{ s with
             products := s.products ++
               [⟨s.nextProductId, name.getD "", price.getD 0, stock.getD 0, caller.email⟩],
             nextProductId := s.nextProductId + 1 },
          ⟨201, .msgProduct "Producto subido exitosamente"
            ⟨s.nextProductId, name.getD "", price.getD 0, stock.getD 0, caller.email⟩⟩⟩) := by
  refine ⟨?_, fun h => ?_, fun h1 h2 h3 hr => ?_⟩
  · by_cases h1 : truthyStr name <;> by_cases h2 : truthyNum price <;>
      by_cases h3 : truthyNum stock <;>
      simp [uploadProduct, h1, h2, h3] <;>
      by_cases hrr : caller.role = "seller" <;> simp [hrr]
  · rcases h with h | h <;> subst h <;> simp [uploadProduct, truthyNum]
  · simp [uploadProduct, h1, h2, h3, hr]

/-- C3 witness: a seller uploading a truthily filled product gets it
inserted under their email and returned with 201; also a stock of 0 is
rejected with the 400 of missing fields. -/
theorem uploadProduct_validation_witness :
    uploadProduct emptyStore ⟨1, "s@x.com", "seller"⟩ (some "Widget") (some 10) (some 5) =
      ⟨{ emptyStore with products := [⟨1, "Widget", 10, 5, "s@x.com"⟩], nextProductId := 2 },
        ⟨201, .msgProduct "Producto subido exitosamente" ⟨1, "Widget", 10, 5, "s@x.com"⟩⟩⟩ ∧
    uploadProduct emptyStore ⟨1, "s@x.com", "seller"⟩ (some "Widget") (some 10) (some 0) =
      ⟨emptyStore, ⟨400, .msg "Todos los campos son obligatorios"⟩⟩ := by
  constructor
  · have h := (uploadProduct_validation emptyStore ⟨1, "s@x.com", "seller"⟩
      (some "Widget") (some 10) (some 5)).2.2 (by decide) (by decide) (by decide) (by decide)
    rw [h]; rfl
  · have h := (uploadProduct_validation emptyStore ⟨1, "s@x.com", "seller"⟩
      (some "Widget") (some 10) (some 0)).2.1 (Or.inr rfl)
    rw [h]

/-- C5: DELETE /products/:id answers 403 with no deletion when the caller
is not a seller; for a seller it deletes exactly the caller-owned rows
with the given id, and when the caller owns no such row — be the id
another seller's product or nonexistent — it answers the same 404 with the
store unchanged. -/
theorem deleteProduct_ownership (s : Store) (caller : JwtPayload) (pid : Nat) :
    (caller.role ≠ "seller" →
      deleteProduct s caller pid =
        ⟨s, ⟨403, .msg "Solo los vendedores pueden eliminar productos"⟩⟩) ∧
    (caller.role = "seller" →
      (∀ q ∈ s.products, ¬ (q.id = pid ∧ q.seller = caller.email)) →
      deleteProduct s caller pid =
        ⟨s, ⟨404, .msg "Producto no encontrado o no tienes permiso para eliminarlo"⟩⟩) ∧
    (caller.role = "seller" →
      (∃ q ∈ s.products, q.id = pid ∧ q.seller = caller.email) →
      deleteProduct s caller pid =
        ⟨{ s with products := s.products.filter (fun q => !(q.id == pid && q.seller == caller.email)) },
          ⟨200, .msg "Producto eliminado exitosamente"⟩⟩) := by
  refine ⟨fun h => ?_, fun hrole hnone => ?_, fun hrole hsome => ?_⟩
  · unfold deleteProduct; rw [if_pos h]
  · have hany : ¬ (s.products.any (fun p => p.id == pid && p.seller == caller.email) = true) := by
      simp only [List.any_eq_true, Bool.and_eq_true, beq_iff_eq]
      rintro ⟨q, hq, hid, hsel⟩
      exact hnone q hq ⟨hid, hsel⟩
    unfold deleteProduct
    rw [if_neg (not_not_intro hrole), if_neg hany]
  · have hany : s.products.any (fun p => p.id == pid && p.seller == caller.email) = true := by
      simp only [List.any_eq_true, Bool.and_eq_true, beq_iff_eq]
      obtain ⟨q, hq, hid, hsel⟩ := hsome
      exact ⟨q, hq, hid, hsel⟩
    unfold deleteProduct
    rw [if_neg (not_not_intro hrole), if_pos hany]

/-- C5 witness: the owning seller deleting their only product gets 200 and
an empty products table; a different seller aiming at the same id gets the
404 and changes nothing; so does the owner aiming at a nonexistent id. -/
theorem deleteProduct_ownership_witness :
    deleteProduct { emptyStore with products := [⟨1, "W", 10, 5, "s@x.com"⟩], nextProductId := 2 }
        ⟨1, "s@x.com", "seller"⟩ 1 =
      ⟨{ emptyStore with products := [], nextProductId := 2 },
        ⟨200, .msg "Producto eliminado exitosamente"⟩⟩ ∧
    deleteProduct { emptyStore with products := [⟨1, "W", 10, 5, "s@x.com"⟩], nextProductId := 2 }
        ⟨2, "t@x.com", "seller"⟩ 1 =
      ⟨{ emptyStore with products := [⟨1, "W", 10, 5, "s@x.com"⟩], nextProductId := 2 },
        ⟨404, .msg "Producto no encontrado o no tienes permiso para eliminarlo"⟩⟩ ∧
    deleteProduct { emptyStore with products := [⟨1, "W", 10, 5, "s@x.com"⟩], nextProductId := 2 }
        ⟨1, "s@x.com", "seller"⟩ 9 =
      ⟨{ emptyStore with products := [⟨1, "W", 10, 5, "s@x.com"⟩], nextProductId := 2 },
        ⟨404, .msg "Producto no encontrado o no tienes permiso para eliminarlo"⟩⟩ := by
  refine ⟨?_, ?_, ?_⟩
  · have h := (deleteProduct_ownership
      { emptyStore with products := [⟨1, "W", 10, 5, "s@x.com"⟩], nextProductId := 2 }
      ⟨1, "s@x.com", "seller"⟩ 1).2.2 (by decide) (by decide)
    rw [h]; decide
  · have h := (deleteProduct_ownership
      { emptyStore with products := [⟨1, "W", 10, 5, "s@x.com"⟩], nextProductId := 2 }
      ⟨2, "t@x.com", "seller"⟩ 1).2.1 (by decide) (by decide)
    rw [h]
  · have h := (deleteProduct_ownership
      { emptyStore with products := [⟨1, "W", 10, 5, "s@x.com"⟩], nextProductId := 2 }
      ⟨1, "s@x.com", "seller"⟩ 9).2.1 (by decide) (by decide)
    rw [h]

theorem effQuantity_ne_zero (q : Option Int) : effQuantity q ≠ 0 := by
  match q with
  | none => decide
  | some v => by_cases hv : v = 0 <;> simp [effQuantity, hv]

theorem mkItems_length (startId orderId : Nat) (lines : List CartLine) :
    (mkItems startId orderId lines).length = lines.length := by
  induction lines generalizing startId with
  | nil => rfl
  | cons l rest ih => simp [mkItems, ih]

theorem mkItems_mem (startId orderId : Nat) (lines : List CartLine) (it : OrderItem)
    (h : it ∈ mkItems startId orderId lines) :
    ∃ l ∈ lines, it.productId = l.id ∧ it.quantity = effQuantity l.quantity := by
  induction lines generalizing startId with
  | nil => simp [mkItems] at h
  | cons l rest ih =>
    simp only [mkItems, List.mem_cons] at h
    rcases h with h | h
    · subst h
      exact ⟨l, List.mem_cons_self l rest, rfl, rfl⟩
    · obtain ⟨l2, hl2, hp, hq⟩ := ih _ h
      exact ⟨l2, List.mem_cons_of_mem l hl2, hp, hq⟩

theorem insertItems_all_ok (lines : List CartLine) (s : Store) (orderId k : Nat)
    (failAt : Nat → Bool) (h : ∀ i, failAt i = false) :
    insertItems s orderId lines failAt k =
      ({ s with orderItems := s.orderItems ++ mkItems s.nextOrderItemId orderId lines,
                nextOrderItemId := s.nextOrderItemId + lines.length }, true) := by
  induction lines generalizing s k with
  | nil => simp [insertItems, mkItems]
  | cons l rest ih =>
    simp only [insertItems, h k, Bool.false_eq_true, if_false, mkItems, List.length_cons]
    rw [ih]
    simp [List.append_assoc, Nat.add_comm, Nat.add_assoc, Nat.add_left_comm]

theorem createOrder_ok (s : Store) (caller : JwtPayload) (lines : List CartLine)
    (total : Option Int) (failAt : Nat → Bool) (hfail : ∀ i, failAt i = false)
    (hne : lines ≠ []) (ht : truthyNum total = true) :
    createOrder s caller (some lines) total failAt =
      ⟨{ s with
           orders := s.orders ++ [⟨s.nextOrderId, caller.id, total.getD 0⟩],
           nextOrderId := s.nextOrderId + 1,
           orderItems := s.orderItems ++ mkItems s.nextOrderItemId s.nextOrderId lines,
           nextOrderItemId := s.nextOrderItemId + lines.length },
        ⟨201, .msgOrderId "Orden creada exitosamente" s.nextOrderId⟩⟩ := by
  have hcond : ¬ (lines.length = 0 ∨ ¬ truthyNum total = true) := by
    push_neg
    exact ⟨fun h0 => hne (List.length_eq_zero.mp h0), ht⟩
  simp only [createOrder]
  rw [if_neg hcond, hfail 0]
  simp only [Bool.false_eq_true, if_false]
  rw [insertItems_all_ok lines _ s.nextOrderId 1 failAt hfail]

/-- C4: with a nonempty cart of N lines, a truthy total and every insert
succeeding, POST /orders writes exactly one order row — buyer the caller,
total the client-supplied value — and exactly N order_items rows with the
quantity defaulted to 1 when absent, and answers 201 with the new order
id; an absent or empty cart or a falsy total yields 400 with nothing
written. -/
theorem createOrder_success (s : Store) (caller : JwtPayload)
    (lines : List CartLine) (total : Option Int) (failAt : Nat → Bool)
    (hfail : ∀ i, failAt i = false) :
    (lines ≠ [] → truthyNum total = true →
      createOrder s caller (some lines) total failAt =
        ⟨{ s with
             orders := s.orders ++ [⟨s.nextOrderId, caller.id, total.getD 0⟩],
             nextOrderId := s.nextOrderId + 1,
             orderItems := s.orderItems ++ mkItems s.nextOrderItemId s.nextOrderId lines,
             nextOrderItemId := s.nextOrderItemId + lines.length },
          ⟨201, .msgOrderId "Orden creada exitosamente" s.nextOrderId⟩⟩ ∧
      (mkItems s.nextOrderItemId s.nextOrderId lines).length = lines.length) ∧
    (createOrder s caller none total failAt =
      ⟨s, ⟨400, .msg "Datos incompletos para procesar la orden."⟩⟩) ∧
    (createOrder s caller (some []) total failAt =
      ⟨s, ⟨400, .msg "Datos incompletos para procesar la orden."⟩⟩) ∧
    (truthyNum total = false →
      createOrder s caller (some lines) total failAt =
        ⟨s, ⟨400, .msg "Datos incompletos para procesar la orden."⟩⟩) := by
  refine ⟨fun hne ht => ⟨createOrder_ok s caller lines total failAt hfail hne ht,
    mkItems_length s.nextOrderItemId s.nextOrderId lines⟩, rfl, ?_, fun hf => ?_⟩
  · simp [createOrder]
  · simp only [createOrder]
    rw [if_pos (Or.inr (by simp [hf]))]

/-- C4 witness: a two-line cart with one absent quantity writes one order
row and two item rows (the absent quantity stored as 1) and returns 201
with the new id; the empty cart is refused with 400. -/
theorem createOrder_success_witness :
    createOrder emptyStore ⟨2, "b@x.com", "buyer"⟩ (some [⟨7, none⟩, ⟨8, some 3⟩]) (some 20)
        (fun _ => false) =
      ⟨{ emptyStore with
           orders := [⟨1, 2, 20⟩],
           nextOrderId := 2,
           orderItems := [⟨1, 1, 7, 1⟩, ⟨2, 1, 8, 3⟩],
           nextOrderItemId := 3 },
        ⟨201, .msgOrderId "Orden creada exitosamente" 1⟩⟩ ∧
    createOrder emptyStore ⟨2, "b@x.com", "buyer"⟩ (some []) (some 20) (fun _ => false) =
      ⟨emptyStore, ⟨400, .msg "Datos incompletos para procesar la orden."⟩⟩ := by
  constructor
  · have h := ((createOrder_success emptyStore ⟨2, "b@x.com", "buyer"⟩ [⟨7, none⟩, ⟨8, some 3⟩]
      (some 20) (fun _ => false) (fun _ => rfl)).1 (by decide) rfl).1
    rw [h]; decide
  · exact (createOrder_success emptyStore ⟨2, "b@x.com", "buyer"⟩ [] (some 20)
      (fun _ => false) (fun _ => rfl)).2.2.1

/-- C1: order creation is not atomic — with a two-line cart whose second
item insert fails, the handler answers 500 while the order row and the
first item row stay persisted, so a partial order with fewer item rows
than cart lines is a reachable state. -/
theorem createOrder_partial_order_reachable :
    createOrder emptyStore ⟨1, "b@x.com", "buyer"⟩ (some [⟨7, some 2⟩, ⟨8, some 3⟩]) (some 5)
        (fun i => decide (i = 2)) =
      ⟨{ emptyStore with
           orders := [⟨1, 1, 5⟩],
           nextOrderId := 2,
           orderItems := [⟨1, 1, 7, 2⟩],
           nextOrderItemId := 2 },
        ⟨500, .msg "Error al crear orden"⟩⟩ ∧
    ([⟨7, some 2⟩, ⟨8, some 3⟩] : List CartLine).length = 2 ∧ (1 : Nat) < 2 := by
  refine ⟨by decide, rfl, by decide⟩

/-- C9 counterexample: a cart line with quantity -1 is truthy in
JavaScript, so the handler persists the order item with quantity -1 — a
stored quantity below 1, refuting that every persisted order_item has
quantity at least 1. -/
theorem createOrder_negative_quantity_persisted :
    (createOrder emptyStore ⟨1, "b@x.com", "buyer"⟩ (some [⟨7, some (-1)⟩]) (some 5)
        (fun _ => false)).store.orderItems = [⟨1, 1, 7, -1⟩] ∧
    ((-1 : Int) < 1) := by
  constructor <;> decide

/-- C9 amended: in a successful order creation every written order_items
row takes its quantity from the JavaScript default, so a quantity of 0 or
an absent one is stored as 1 and no stored quantity is 0; a negative
client-supplied quantity, however, is truthy and is stored unchanged. -/
theorem createOrder_quantity_default (s : Store) (caller : JwtPayload)
    (lines : List CartLine) (total : Option Int) (failAt : Nat → Bool)
    (hfail : ∀ i, failAt i = false) (hne : lines ≠ []) (ht : truthyNum total = true) :
    (createOrder s caller (some lines) total failAt).store.orderItems =
      s.orderItems ++ mkItems s.nextOrderItemId s.nextOrderId lines ∧
    (∀ q : Option Int, q = none ∨ q = some 0 → effQuantity q = 1) ∧
    (∀ it ∈ mkItems s.nextOrderItemId s.nextOrderId lines, it.quantity ≠ 0) := by
  refine ⟨?_, fun q hq => ?_, fun it hit => ?_⟩
  · rw [createOrder_ok s caller lines total failAt hfail hne ht]
  · rcases hq with h | h <;> subst h <;> rfl
  · obtain ⟨l, _, _, hq⟩ := mkItems_mem _ _ _ _ hit
    rw [hq]
    exact effQuantity_ne_zero l.quantity

/-- C9 witness: a one-line cart with quantity 0 is persisted as a single
item row carrying quantity 1. -/
theorem createOrder_quantity_default_witness :
    (createOrder emptyStore ⟨2, "b@x.com", "buyer"⟩ (some [⟨7, some 0⟩]) (some 9)
        (fun _ => false)).store.orderItems =
      emptyStore.orderItems ++ mkItems emptyStore.nextOrderItemId emptyStore.nextOrderId
        [⟨7, some 0⟩] :=
  (createOrder_quantity_default emptyStore ⟨2, "b@x.com", "buyer"⟩ [⟨7, some 0⟩] (some 9)
    (fun _ => false) (fun _ => rfl) (by decide) rfl).1
